import Mathlib

/-!
# Verification of the cyberdesk operator controller

Shallow embedding of `services/cyberdesk-operator/handlers/controller.py`.
The Kopf handlers are modelled as pure functions: every Kubernetes /
Supabase / gateway interaction is an input (an `Except`-valued field of an
environment record) and every external effect is recorded in an effects
record.  Kubernetes merge-patch semantics for label maps is modelled by
`mergeLabels` (patch keys win, other keys are preserved); status patches
distinguish "key absent" (leave unchanged), "key null" (remove) and
"key set" exactly as Kopf's `patch.status` dict does.
-/

namespace Cyberdesk

/-- Constant `MANAGED_BY = "cyberdesk-operator"` from the source. -/
def MANAGED_BY : String := "cyberdesk-operator"

/-- Python truthiness of an optional string (`if vm_ref:` etc.):
`None` and the empty string are falsy. -/
def optTruthy : Option String → Bool
  | none => false
  | some s => !s.isEmpty

/-! ## Label maps and Kubernetes merge-patch semantics -/

/-- A Kubernetes label map, as an association list (first binding wins). -/
abbrev Labels := List (String × String)

/-- First value bound to key `k`, or `none`. -/
def lookupLabel : Labels → String → Option String
  | [], _ => none
  | (k', v) :: rest, k => if k' = k then some v else lookupLabel rest k

/-- Kubernetes merge-patch on a label map: keys of the patch `p` win,
all other keys of `old` are preserved. -/
def mergeLabels (old p : Labels) : Labels :=
  old.filter (fun kv => (lookupLabel p kv.1).isNone) ++ p

theorem lookupLabel_append (l₁ l₂ : Labels) (k : String) :
    lookupLabel (l₁ ++ l₂) k =
      match lookupLabel l₁ k with
      | some v => some v
      | none => lookupLabel l₂ k := by
  induction l₁ with
  | nil => rfl
  | cons kv rest ih =>
      obtain ⟨k', v⟩ := kv
      by_cases h : k' = k <;> simp [lookupLabel, h, ih]

theorem lookupLabel_filter_of_mem (old p : Labels) (k : String)
    (h : (lookupLabel p k).isSome) :
    lookupLabel (old.filter (fun kv => (lookupLabel p kv.1).isNone)) k = none := by
  induction old with
  | nil => rfl
  | cons kv rest ih =>
      obtain ⟨k', v⟩ := kv
      by_cases hk : k' = k
      · subst hk
        have : (lookupLabel p k').isNone = false := by
          cases hp : lookupLabel p k' <;> simp_all
        simp [List.filter, this, ih]
      · by_cases hp : (lookupLabel p k').isNone <;>
          simp [List.filter, hp, lookupLabel, hk, ih]

theorem lookupLabel_filter_of_not_mem (old p : Labels) (k : String)
    (h : lookupLabel p k = none) :
    lookupLabel (old.filter (fun kv => (lookupLabel p kv.1).isNone)) k =
      lookupLabel old k := by
  induction old with
  | nil => rfl
  | cons kv rest ih =>
      obtain ⟨k', v⟩ := kv
      by_cases hk : k' = k
      · subst hk
        simp [List.filter, h, lookupLabel, ih]
      · by_cases hp : (lookupLabel p k').isNone <;>
          simp [List.filter, hp, lookupLabel, hk, ih]

/-- Merge-patch lookup: patch keys win, other keys see the old value. -/
theorem lookupLabel_mergeLabels (old p : Labels) (k : String) :
    lookupLabel (mergeLabels old p) k =
      match lookupLabel p k with
      | some v => some v
      | none => lookupLabel old k := by
  unfold mergeLabels
  rw [lookupLabel_append]
  cases hp : lookupLabel p k with
  | some v =>
      rw [lookupLabel_filter_of_mem old p k (by simp [hp])]
  | none =>
      rw [lookupLabel_filter_of_not_mem old p k hp]
      cases lookupLabel old k <;> rfl

/-! ## VirtualMachine objects and merge patches -/

/-- The parts of `spec.template` the controller reads or patches. -/
structure VMTemplate where
  labels : Labels := []
  hostname : Option String := none
deriving Repr, DecidableEq

/-- The parts of a KubeVirt `VirtualMachine` object the controller reads
or patches. -/
structure VM where
  labels : Labels := []
  hasOwnerReferences : Bool := false
  runStrategy : Option String := none
  template : VMTemplate := {}
  printableStatus : Option String := none
deriving Repr, DecidableEq

/-- A merge-patch body for a `VirtualMachine`, as the controller builds
them: label maps are merged, scalar fields are replaced when present. -/
structure VMPatch where
  labels : Labels := []
  clearOwnerReferences : Bool := false
  runStrategy : Option String := none
  tmplLabels : Labels := []
  hostname : Option String := none
deriving Repr, DecidableEq

/-- Kubernetes merge-patch application for the modelled VM fields. -/
def applyVMPatch (vm : VM) (p : VMPatch) : VM :=
  { labels := mergeLabels vm.labels p.labels
    hasOwnerReferences := if p.clearOwnerReferences then false else vm.hasOwnerReferences
    runStrategy := match p.runStrategy with
      | some r => some r
      | none => vm.runStrategy
    template :=
      { labels := mergeLabels vm.template.labels p.tmplLabels
        hostname := match p.hostname with
          | some h => some h
          | none => vm.template.hostname }
    printableStatus := vm.printableStatus }

/-- The patch body built by `_ensure_vm_patched_and_running(vm_name, ...)`
(controller.py lines 413–439): top-level label `managed-by` only;
`spec.runStrategy = "Always"`; VMI labels `app`, `cyberdesk-instance`,
`managed-by`, `kubevirt.io/domain` all keyed to `vm_name`;
`spec.template.spec.hostname = vm_name`. -/
def ensureVmPatchBody (vm_name : String) : VMPatch :=
  { labels := [("managed-by", MANAGED_BY)]
    clearOwnerReferences := false
    runStrategy := some "Always"
    tmplLabels := [("app", "cyberdesk"), ("cyberdesk-instance", vm_name),
                   ("managed-by", MANAGED_BY), ("kubevirt.io/domain", vm_name)]
    hostname := some vm_name }

/-! ## Cyberdesk status and status patches -/

/-- The nested `status.cyberdesk_create` record of a `Cyberdesk` resource.
Times are modelled as integer milliseconds since an arbitrary epoch
(ISO-8601 strings in the source).  A `none` field is an absent key —
Kubernetes never stores nulls. -/
structure CyberdeskStatus where
  virtualMachineRef : Option String := none
  cloneOperationName : Option String := none
  lastPhase : Option String := none
  startTime : Option Int := none
  expiryTime : Option Int := none
deriving Repr, DecidableEq

/-- One field of a status merge patch: absent key (leave unchanged),
null (remove), or a value. -/
inductive PatchField (α : Type)
  | absent
  | clear
  | set (v : α)
deriving Repr, DecidableEq

/-- A merge patch for the `status.cyberdesk_create` record, mirroring the
dicts assigned to `patch.status["cyberdesk_create"]` in the source
(`None` values become `clear`, missing keys become `absent`). -/
structure StatusPatch where
  virtualMachineRef : PatchField String := .absent
  cloneOperationName : PatchField String := .absent
  lastPhase : PatchField String := .absent
  startTime : PatchField Int := .absent
  expiryTime : PatchField Int := .absent
deriving Repr, DecidableEq

def applyField {α : Type} (cur : Option α) : PatchField α → Option α
  | .absent => cur
  | .clear => none
  | .set v => some v

/-- Merge-patch application on the status record. -/
def applyStatusPatch (st : CyberdeskStatus) (p : StatusPatch) : CyberdeskStatus :=
  { virtualMachineRef := applyField st.virtualMachineRef p.virtualMachineRef
    cloneOperationName := applyField st.cloneOperationName p.cloneOperationName
    lastPhase := applyField st.lastPhase p.lastPhase
    startTime := applyField st.startTime p.startTime
    expiryTime := applyField st.expiryTime p.expiryTime }

/-- The patch field produced by spreading a stored (null-free) value with
`{**current_status, ...}`: present keys are re-set, absent keys stay absent. -/
def spreadField {α : Type} : Option α → PatchField α
  | some v => .set v
  | none => .absent

/-- The patch `{**current_status}`. -/
def spreadPatch (st : CyberdeskStatus) : StatusPatch :=
  { virtualMachineRef := spreadField st.virtualMachineRef
    cloneOperationName := spreadField st.cloneOperationName
    lastPhase := spreadField st.lastPhase
    startTime := spreadField st.startTime
    expiryTime := spreadField st.expiryTime }

theorem applyField_spreadField {α : Type} (cur : Option α) :
    applyField cur (spreadField cur) = cur := by
  cases cur <;> rfl

theorem applyField_absent {α : Type} (cur : Option α) :
    applyField cur PatchField.absent = cur := rfl

theorem applyField_clear {α : Type} (cur : Option α) :
    applyField cur PatchField.clear = none := rfl

/-! ## Handler outcomes, environments and effects -/

/-- The way a Kopf handler invocation terminates: normal return,
`kopf.TemporaryError` (with its `delay=` argument when given), or
`kopf.PermanentError`. -/
inductive Outcome
  | done
  | tempError (delay : Option Nat)
  | permError
deriving Repr, DecidableEq

/-- A KubeVirt VMI as read by the pool readiness check: first interface's
`ipAddress` (if any interface exists) and `status.phase`. -/
structure VMI where
  firstInterfaceIp : Option String := none
  phase : Option String := none
deriving Repr, DecidableEq

/-- A `VirtualMachineClone` object as read by the clone check. -/
structure CloneObj where
  phase : Option String := none
deriving Repr, DecidableEq

/-- Results of the external calls `cyberdesk_create` can make.  An
`Except.error n` is an `ApiException` with HTTP status `n`
(`poolResult`'s error is the list call failing, which the pool claimer
already converts to a retryable error). -/
structure CreateEnv where
  now : Int
  poolResult : Except Unit (Option String)
  currentVM : String → Except Nat VM
  poolPatchOk : Bool
  vmiGet : String → Except Nat VMI
  cloneGet : String → Except Nat CloneObj
  cloneCreate : String → Except Nat Unit
  cloneDelete : String → Except Nat Unit
  ensurePatchOk : Bool

/-- External effects performed by one `cyberdesk_create` invocation:
the (single) status patch left in `patch.status["cyberdesk_create"]`,
the VM merge patches successfully applied, and the clone objects whose
creation/deletion was attempted. -/
structure CreateEffects where
  statusPatch : Option StatusPatch := none
  vmPatches : List (String × VMPatch) := []
  cloneCreateAttempted : Option String := none
  cloneDeleteAttempted : Option String := none
deriving Repr, DecidableEq

/-! ## The create reconciler `cyberdesk_create` -/

/-- Default for the missing spec key, `spec.get("timeoutMs", 3_600_000)`. -/
def default_timeout_ms : Int := 3600000

/-- Constant `max_clone_wait_retries = 20`. -/
def max_clone_wait_retries : Nat := 20

/-- Constant `clone_wait_delay = 5`. -/
def clone_wait_delay : Nat := 5

/-- The `last_phase in ["AssignedFromPool", "Cloned", "Running"]` list. -/
def boundPhases : List String := ["AssignedFromPool", "Cloned", "Running"]

/-- The already-provisioned check `if vm_ref and last_phase in [...]`. -/
def isBound (st : CyberdeskStatus) : Bool :=
  optTruthy st.virtualMachineRef && boundPhases.contains (st.lastPhase.getD "")

/-- Bound steady state (controller.py 474–513): re-apply
`_ensure_vm_patched_and_running(vm_ref)`; re-populate `startTime` /
`expiryTime` if either is missing, else patch the status back unchanged;
in both cases the `cloneOperationName` key is deleted from the patch.
`_ensure_vm_patched_and_running` converts every `ApiException` into a
10s `TemporaryError`, so the handler's own `except ApiException` branch
is unreachable from the patch call. -/
def boundBranch (timeout_ms : Int) (st : CyberdeskStatus) (env : CreateEnv) :
    Outcome × CreateEffects :=
  let vm_ref := st.virtualMachineRef.getD ""
  if env.ensurePatchOk then
    let base :=
      if st.startTime.isNone || st.expiryTime.isNone then
        { spreadPatch st with
            startTime := .set env.now
            expiryTime := .set (env.now + timeout_ms) }
      else spreadPatch st
    (.done, { statusPatch := some { base with cloneOperationName := .absent }
              vmPatches := [(vm_ref, ensureVmPatchBody vm_ref)] })
  else
    (.tempError (some 10), {})

/-- The identity labels added at both levels on the pool-assignment path
(controller.py 530–531). -/
def poolIdentityLabels (instance_id : String) : Labels :=
  [("app", "cyberdesk"), ("cyberdesk-instance", instance_id), ("managed-by", MANAGED_BY)]

/-- The VMI-template labels on the pool-assignment path: the identity
labels plus `kubevirt.io/domain=<instance_id>`. -/
def poolVmiLabels (instance_id : String) : Labels :=
  poolIdentityLabels instance_id ++ [("kubevirt.io/domain", instance_id)]

/-- The patch body sent to the pool-assigned VM (controller.py 529–539):
the fetched current labels spread first, then the identity labels. -/
def poolSuccessPatchBody (instance_id : String) (cur : VM) : VMPatch :=
  { labels := mergeLabels cur.labels (poolIdentityLabels instance_id)
    tmplLabels := mergeLabels cur.template.labels (poolVmiLabels instance_id) }

/-- The readiness test of controller.py 557: no interface IP (or an
empty one) or a phase other than Running means not ready. -/
def vmiNotReady (vmi : VMI) : Bool :=
  !(optTruthy vmi.firstInterfaceIp) || vmi.phase != some "Running"

/-- Pool-assignment finalization (controller.py 525–603): fetch the VM,
merge-patch its labels, readiness-gate on the VMI, notify the gateway
(fire-and-forget), then write the `AssignedFromPool` status. -/
def poolBranch (instance_id : String) (timeout_ms : Int) (assigned : String)
    (env : CreateEnv) : Outcome × CreateEffects :=
  match env.currentVM assigned with
  | .error _ => (.tempError (some 10), {})
  | .ok cur =>
    if env.poolPatchOk then
      let vmp := poolSuccessPatchBody instance_id cur
      match env.vmiGet assigned with
      | .error code =>
          if code = 404 then (.tempError none, { vmPatches := [(assigned, vmp)] })
          else (.tempError (some 10), { vmPatches := [(assigned, vmp)] })
      | .ok vmi =>
          if vmiNotReady vmi then
            (.tempError none, { vmPatches := [(assigned, vmp)] })
          else
            (.done,
             { statusPatch := some
                 { virtualMachineRef := .set assigned
                   startTime := .set env.now
                   expiryTime := .set (env.now + timeout_ms)
                   lastPhase := .set "AssignedFromPool"
                   cloneOperationName := .clear }
               vmPatches := [(assigned, vmp)] })
    else (.tempError (some 10), {})

/-- The pre-clone status patch (controller.py 613–618). -/
def freshClonePatch (instance_id : String) : StatusPatch :=
  { cloneOperationName := .set ("clone-for-" ++ instance_id)
    lastPhase := .set "CloningInitiated"
    virtualMachineRef := .clear }

/-- The clone-success status patch (controller.py 695–701). -/
def cloneSuccessPatch (instance_id : String) (now timeout_ms : Int) : StatusPatch :=
  { virtualMachineRef := .set instance_id
    startTime := .set now
    expiryTime := .set (now + timeout_ms)
    lastPhase := .set "Cloned"
    cloneOperationName := .clear }

/-- The `CloneFailed` / `CloneTimeout` status patch (controller.py
711–716 and 735–740): `{**current_status}` then the phase, with both
`cloneOperationName` and `virtualMachineRef` nulled. -/
def cloneAbortPatch (st : CyberdeskStatus) (phase : String) : StatusPatch :=
  { spreadPatch st with
      lastPhase := .set phase
      cloneOperationName := .clear
      virtualMachineRef := .clear }

/-- Clone orchestration (controller.py 630–757): get-or-create the
`VirtualMachineClone`, then dispatch on its phase.  Every delete outcome
of the timed-out clone is swallowed (404 and any other `ApiException`
alike), so the timeout result is independent of `env.cloneDelete`. -/
def cloneBranch (instance_id clone_op_name : String) (timeout_ms : Int)
    (st : CyberdeskStatus) (retry : Nat) (env : CreateEnv) : Outcome × CreateEffects :=
  match env.cloneGet clone_op_name with
  | .error code =>
      if code = 404 then
        match env.cloneCreate clone_op_name with
        | .ok _ => (.tempError (some clone_wait_delay),
                    { cloneCreateAttempted := some clone_op_name })
        | .error _ => (.tempError (some clone_wait_delay),
                    { cloneCreateAttempted := some clone_op_name })
      else (.tempError (some clone_wait_delay), {})
  | .ok clone_obj =>
      if clone_obj.phase = some "Succeeded" then
        if env.ensurePatchOk then
          (.done, { statusPatch := some (cloneSuccessPatch instance_id env.now timeout_ms)
                    vmPatches := [(instance_id, ensureVmPatchBody instance_id)] })
        else (.tempError (some 10), {})
      else if clone_obj.phase = some "Failed" then
        (.permError, { statusPatch := some (cloneAbortPatch st "CloneFailed") })
      else if clone_obj.phase = some "Unknown" then
        (.tempError (some clone_wait_delay), {})
      else
        if max_clone_wait_retries ≤ retry then
          match env.cloneDelete clone_op_name with
          | _ => (.permError, { statusPatch := some (cloneAbortPatch st "CloneTimeout")
                                cloneDeleteAttempted := some clone_op_name })
        else (.tempError (some clone_wait_delay), {})

/-- The create reconciler `cyberdesk_create` (controller.py 456–757),
with `timeout_ms = spec.get("timeoutMs", 3_600_000)`. -/
def cyberdesk_create (instance_id : String) (specTimeoutMs : Option Int)
    (st : CyberdeskStatus) (retry : Nat) (env : CreateEnv) : Outcome × CreateEffects :=
  let timeout_ms := specTimeoutMs.getD default_timeout_ms
  if isBound st then
    boundBranch timeout_ms st env
  else if optTruthy st.cloneOperationName then
    cloneBranch instance_id (st.cloneOperationName.getD "") timeout_ms st retry env
  else
    match env.poolResult with
    | .error _ => (.tempError (some 15), {})
    | .ok (some assigned) => poolBranch instance_id timeout_ms assigned env
    | .ok none => (.tempError (some clone_wait_delay),
                   { statusPatch := some (freshClonePatch instance_id) })

/-! ## The pool claimer `get_free_vm_from_pool` -/

/-- A pool VM as seen in the list response (controller.py 249–266). -/
structure PoolVM where
  name : Option String := none
  labels : Labels := []
  printableStatus : Option String := none
deriving Repr, DecidableEq

/-- The claim patch issued on a candidate (controller.py 271–281):
detach owner references, keep existing labels, mark in-use/claimed. -/
def poolClaimPatchBody (labels : Labels) : VMPatch :=
  { labels := mergeLabels labels
      [("pool.kubevirt.io/in-use", "true"), ("pool.kubevirt.io/warm", "claimed")]
    clearOwnerReferences := true }

/-- The candidate loop of `get_free_vm_from_pool` (controller.py
249–301): skip nameless, in-use, or non-Running VMs; try to claim the
rest in order; a failed claim patch moves on to the next candidate. -/
def claimLoop (patchOk : String → Bool) : List PoolVM → Option String
  | [] => none
  | vm :: rest =>
      if !(optTruthy vm.name) then claimLoop patchOk rest
      else if lookupLabel vm.labels "pool.kubevirt.io/in-use" = some "true" then
        claimLoop patchOk rest
      else if vm.printableStatus ≠ some "Running" then claimLoop patchOk rest
      else if patchOk (vm.name.getD "") then some (vm.name.getD "")
      else claimLoop patchOk rest

/-- The pool claimer `get_free_vm_from_pool` (controller.py 223–301):
a failed list call
is a 15s retryable error; otherwise the claim loop's result is returned. -/
def get_free_vm_from_pool (listResult : Except Unit (List PoolVM))
    (patchOk : String → Bool) : Outcome × Option String :=
  match listResult with
  | .error _ => (.tempError (some 15), none)
  | .ok vms => (.done, claimLoop patchOk vms)

/-! ## The phase synchronizer mapping -/

/-- The members of the `KubeVirtVMIPhase` enum (controller.py 84–93). -/
def KubeVirtVMIPhases : List String :=
  ["Pending", "Scheduling", "Scheduled", "Running", "Succeeded", "Failed", "Unknown"]

/-- The table `VMI_PHASE_TO_SUPABASE_STATUS` (controller.py 106–114). -/
def VMI_PHASE_TO_SUPABASE_STATUS : List (String × String) :=
  [("Pending", "pending"), ("Scheduling", "pending"), ("Scheduled", "pending"),
   ("Running", "pending"), ("Succeeded", "terminated"),
   ("Failed", "error"), ("Unknown", "error")]

/-- The status value `update_instance_status` writes for a raw VMI phase
string (controller.py 203–217): an unknown phase (`ValueError` from the
enum constructor) and a phase missing from the table both map to
`"error"`. -/
def update_instance_status_target (vmi_phase : String) : String :=
  if vmi_phase ∈ KubeVirtVMIPhases then
    (lookupLabel VMI_PHASE_TO_SUPABASE_STATUS vmi_phase).getD "error"
  else "error"

/-! ## The deleter `cyberdesk_delete` -/

structure DeleteEnv where
  deleteVM : String → Except Nat Unit
  deleteClone : String → Except Nat Unit

structure DeleteEffects where
  vmDeleteAttempted : Option String := none
  cloneDeleteAttempted : Option String := none
deriving Repr, DecidableEq

/-- The deleter `cyberdesk_delete` (controller.py 814–864): delete the VM named by
`virtualMachineRef` (404/410 swallowed, anything else a 15s retryable
error); else best-effort delete of the clone object (every `ApiException`
swallowed); else nothing. -/
def cyberdesk_delete (st : CyberdeskStatus) (env : DeleteEnv) :
    Outcome × DeleteEffects :=
  if optTruthy st.virtualMachineRef then
    let vm_name := st.virtualMachineRef.getD ""
    match env.deleteVM vm_name with
    | .ok _ => (.done, { vmDeleteAttempted := some vm_name })
    | .error code =>
        if code = 404 ∨ code = 410 then (.done, { vmDeleteAttempted := some vm_name })
        else (.tempError (some 15), { vmDeleteAttempted := some vm_name })
  else if optTruthy st.cloneOperationName then
    let clone_op_name := st.cloneOperationName.getD ""
    match env.deleteClone clone_op_name with
    | _ => (.done, { cloneDeleteAttempted := some clone_op_name })
  else (.done, {})

/-! ## The expiry timer `cyberdesk_timeout_check` -/

/-- The timer interval from the `@kopf.on.timer(..., interval=60)`
decorator (controller.py 867). -/
def cyberdesk_timeout_interval : Nat := 60

structure TimerEnv where
  now : Int
  parseIso : String → Option Int
  deleteCR : Except Nat Unit

/-- Effects of one timer tick: whether deletion of the `Cyberdesk` CR was
attempted.  The handler touches no VM (`vmDeleteAttempted` is its constant
`none` witness of that). -/
structure TimerEffects where
  crDeleteAttempted : Bool := false
  vmDeleteAttempted : Option String := none
deriving Repr, DecidableEq

/-- The timer `cyberdesk_timeout_check` (controller.py 867–896): no `expiryTime` ⇒
no-op; unparseable `expiryTime` (`ValueError`) ⇒ logged no-op; not yet
expired ⇒ no-op; expired ⇒ delete the `Cyberdesk` CR, an `ApiException`
there being a 30s retryable error. -/
def cyberdesk_timeout_check (expiryTime : Option String) (env : TimerEnv) :
    Outcome × TimerEffects :=
  if !(optTruthy expiryTime) then (.done, {})
  else
      match env.parseIso (expiryTime.getD "") with
      | none => (.done, {})
      | some expiry =>
          if expiry ≤ env.now then
            match env.deleteCR with
            | .ok _ => (.done, { crDeleteAttempted := true })
            | .error _ => (.tempError (some 30), { crDeleteAttempted := true })
          else (.done, {})

/-! ## Claim theorems -/

/-- C4: the synchronizer's phase-to-external-status mapping sends
`Pending`, `Scheduling`, `Scheduled` and `Running` to `pending`,
`Succeeded` to `terminated`, `Failed` and `Unknown` to `error`, and any
unrecognized phase string to `error`. -/
theorem C4_vmi_phase_mapping :
    update_instance_status_target "Pending" = "pending" ∧
    update_instance_status_target "Scheduling" = "pending" ∧
    update_instance_status_target "Scheduled" = "pending" ∧
    update_instance_status_target "Running" = "pending" ∧
    update_instance_status_target "Succeeded" = "terminated" ∧
    update_instance_status_target "Failed" = "error" ∧
    update_instance_status_target "Unknown" = "error" ∧
    ∀ s : String, s ∉ KubeVirtVMIPhases → update_instance_status_target s = "error" := by
  refine ⟨by decide, by decide, by decide, by decide, by decide, by decide, by decide, ?_⟩
  intro s hs
  simp [update_instance_status_target, hs]

/-- Witness for C4 at the unrecognized phase string `"Paused"`. -/
theorem C4_vmi_phase_mapping_witness :
    "Paused" ∉ KubeVirtVMIPhases ∧ update_instance_status_target "Paused" = "error" :=
  ⟨by decide, C4_vmi_phase_mapping.2.2.2.2.2.2.2 "Paused" (by decide)⟩

/-- C8: in the pool claimer, a failed claim patch on a candidate makes the
loop continue with the remaining candidates rather than abort, and a
failed list call raises a 15s retryable error. -/
theorem C8_pool_claimer_error_handling :
    (∀ patchOk : String → Bool,
      get_free_vm_from_pool (.error ()) patchOk = (.tempError (some 15), none)) ∧
    (∀ (patchOk : String → Bool) (vm : PoolVM) (rest : List PoolVM) (n : String),
      vm.name = some n → patchOk n = false →
      claimLoop patchOk (vm :: rest) = claimLoop patchOk rest) := by
  refine ⟨fun _ => rfl, ?_⟩
  intro patchOk vm rest n hname hpatch
  conv_lhs => unfold claimLoop
  rw [hname]
  simp [hpatch]

/-- Witness for C8: the list failure, and a running ready candidate whose
claim patch fails, continuing into (here) the empty tail. -/
theorem C8_pool_claimer_error_handling_witness :
    get_free_vm_from_pool (.error ()) (fun _ => false) = (.tempError (some 15), none) ∧
    claimLoop (fun _ => false)
        [{ name := some "vm-a", labels := [], printableStatus := some "Running" }] =
      claimLoop (fun _ => false) [] :=
  ⟨C8_pool_claimer_error_handling.1 _,
   C8_pool_claimer_error_handling.2 _ _ [] "vm-a" rfl rfl⟩

/-- C9: the expiry timer runs every 60 seconds; it is a no-op on a missing
`expiryTime`; an unparseable `expiryTime` is a logged no-op; once the
current time reaches `expiryTime` it attempts deletion of the `Cyberdesk`
resource itself and never a VM, an API failure there being a 30s
retryable error. -/
theorem C9_timeout_check (env : TimerEnv) :
    cyberdesk_timeout_check none env = (.done, {}) ∧
    cyberdesk_timeout_interval = 60 ∧
    (∀ s : String, optTruthy (some s) = true → env.parseIso s = none →
      cyberdesk_timeout_check (some s) env = (.done, {})) ∧
    (∀ (s : String) (t : Int), optTruthy (some s) = true → env.parseIso s = some t →
      t ≤ env.now →
      (cyberdesk_timeout_check (some s) env).2.crDeleteAttempted = true ∧
      (cyberdesk_timeout_check (some s) env).2.vmDeleteAttempted = none ∧
      (env.deleteCR = .ok () →
        cyberdesk_timeout_check (some s) env = (.done, { crDeleteAttempted := true })) ∧
      (∀ code : Nat, env.deleteCR = .error code →
        cyberdesk_timeout_check (some s) env =
          (.tempError (some 30), { crDeleteAttempted := true }))) := by
  refine ⟨rfl, rfl, ?_, ?_⟩
  · intro s hs hparse
    simp [cyberdesk_timeout_check, hs, hparse]
  · intro s t hs hparse hexp
    refine ⟨?_, ?_, ?_, ?_⟩
    · simp only [cyberdesk_timeout_check, hs, hparse, Option.getD]
      simp [hexp]
      cases env.deleteCR <;> rfl
    · simp only [cyberdesk_timeout_check, hs, hparse, Option.getD]
      simp [hexp]
      cases env.deleteCR <;> rfl
    · intro hdel
      simp [cyberdesk_timeout_check, hs, hparse, hexp, hdel]
    · intro code hdel
      simp [cyberdesk_timeout_check, hs, hparse, hexp, hdel]

/-- Witness for C9: an expired desktop whose CR deletion succeeds. -/
theorem C9_timeout_check_witness :
    cyberdesk_timeout_check (some "2024-01-01T00:00:00+00:00")
        { now := 100, parseIso := fun _ => some 50, deleteCR := .ok () } =
      (.done, { crDeleteAttempted := true }) :=
  ((C9_timeout_check { now := 100, parseIso := fun _ => some 50, deleteCR := .ok () }).2.2.2
    "2024-01-01T00:00:00+00:00" 50 (by decide) rfl (by decide)).2.2.1 rfl

/-- C7: on deletion, a set `vmRef` leads to a VM delete where 404/410 are
ignored and any other API error is a retryable error; otherwise a set
`cloneOpName` leads to a best-effort clone delete that never blocks;
otherwise nothing external is touched. -/
theorem C7_delete (st : CyberdeskStatus) (env : DeleteEnv) (v c : String) :
    (st.virtualMachineRef = some v → optTruthy (some v) = true →
      (cyberdesk_delete st env).2.vmDeleteAttempted = some v ∧
      (cyberdesk_delete st env).2.cloneDeleteAttempted = none ∧
      (env.deleteVM v = .ok () →
        cyberdesk_delete st env = (.done, { vmDeleteAttempted := some v })) ∧
      (∀ code : Nat, env.deleteVM v = .error code → (code = 404 ∨ code = 410) →
        cyberdesk_delete st env = (.done, { vmDeleteAttempted := some v })) ∧
      (∀ code : Nat, env.deleteVM v = .error code → ¬(code = 404 ∨ code = 410) →
        cyberdesk_delete st env = (.tempError (some 15), { vmDeleteAttempted := some v }))) ∧
    (optTruthy st.virtualMachineRef = false → st.cloneOperationName = some c →
      optTruthy (some c) = true →
      cyberdesk_delete st env = (.done, { cloneDeleteAttempted := some c })) ∧
    (optTruthy st.virtualMachineRef = false → optTruthy st.cloneOperationName = false →
      cyberdesk_delete st env = (.done, {})) := by
  refine ⟨?_, ?_, ?_⟩
  · intro hv htruthy
    refine ⟨?_, ?_, ?_, ?_, ?_⟩
    · simp only [cyberdesk_delete, hv, htruthy, if_true, Option.getD_some]
      cases hdel : env.deleteVM v with
      | ok _ => rfl
      | error code => simp only [hdel]; split <;> rfl
    · simp only [cyberdesk_delete, hv, htruthy, if_true, Option.getD_some]
      cases hdel : env.deleteVM v with
      | ok _ => rfl
      | error code => simp only [hdel]; split <;> rfl
    · intro hdel
      simp [cyberdesk_delete, hv, htruthy, hdel]
    · intro code hdel hcode
      simp [cyberdesk_delete, hv, htruthy, hdel, hcode]
    · intro code hdel hcode
      simp [cyberdesk_delete, hv, htruthy, hdel, hcode]
  · intro hv hc htruthy
    simp only [cyberdesk_delete, hv, Bool.false_eq_true, if_false, hc, htruthy, if_true,
      Option.getD_some]
  · intro hv hc
    simp [cyberdesk_delete, hv, hc]

/-- Witness for C7: a bound desktop whose VM delete answers 410 Gone. -/
theorem C7_delete_witness :
    cyberdesk_delete { virtualMachineRef := some "desk-9" }
        { deleteVM := fun _ => .error 410, deleteClone := fun _ => .ok () } =
      (.done, { vmDeleteAttempted := some "desk-9" }) :=
  ((C7_delete { virtualMachineRef := some "desk-9" }
      { deleteVM := fun _ => .error 410, deleteClone := fun _ => .ok () }
      "desk-9" "").1 rfl (by decide)).2.2.2.1 410 rfl (by decide)

/-- A concrete environment for witnesses: empty pool, clone object in
`SnapshotInProgress`, all patches succeeding. -/
def sampleEnv : CreateEnv :=
  { now := 1000
    poolResult := .ok none
    currentVM := fun _ => .ok {}
    poolPatchOk := true
    vmiGet := fun _ => .ok { firstInterfaceIp := some "10.0.0.5", phase := some "Running" }
    cloneGet := fun _ => .ok { phase := some "SnapshotInProgress" }
    cloneCreate := fun _ => .ok ()
    cloneDelete := fun _ => .error 404
    ensurePatchOk := true }

/-- Variant of `sampleEnv` with the clone reported `Succeeded`. -/
def sampleEnvCloneDone : CreateEnv :=
  { sampleEnv with cloneGet := fun _ => .ok { phase := some "Succeeded" } }

/-- Variant of `sampleEnv` with no clone object yet (404 on get). -/
def sampleEnvNoClone : CreateEnv :=
  { sampleEnv with cloneGet := fun _ => .error 404 }

/-- A status that has decided to clone (`CloningInitiated`). -/
def cloningStatus (iid : String) : CyberdeskStatus :=
  { cloneOperationName := some ("clone-for-" ++ iid)
    lastPhase := some "CloningInitiated" }

/-- C3: on a fresh Cyberdesk (neither `vmRef` nor `cloneOpName` set) whose
pool claim comes back empty, the reconciler writes
`phase=CloningInitiated` with `cloneOpName="clone-for-"+name`, leaves
`vmRef` unset, requests a 5s retry, and does not create the clone object
in that invocation; the clone is created on a later pass that finds
`cloneOpName` set and the clone object missing. -/
theorem C3_fresh_writes_status_before_clone (iid : String) (t : Option Int)
    (st : CyberdeskStatus) (r : Nat) (env : CreateEnv)
    (hfresh : st.virtualMachineRef = none) (hclone : st.cloneOperationName = none)
    (hpool : env.poolResult = .ok none) :
    cyberdesk_create iid t st r env =
      (.tempError (some 5), { statusPatch := some (freshClonePatch iid) }) ∧
    (cyberdesk_create iid t st r env).2.cloneCreateAttempted = none ∧
    (applyStatusPatch st (freshClonePatch iid)).cloneOperationName =
      some ("clone-for-" ++ iid) ∧
    (applyStatusPatch st (freshClonePatch iid)).lastPhase = some "CloningInitiated" ∧
    (applyStatusPatch st (freshClonePatch iid)).virtualMachineRef = none ∧
    (∀ (st' : CyberdeskStatus) (env' : CreateEnv) (r' : Nat) (c : String),
      st'.cloneOperationName = some c → optTruthy (some c) = true →
      isBound st' = false → env'.cloneGet c = .error 404 →
      cyberdesk_create iid t st' r' env' =
        (.tempError (some 5), { cloneCreateAttempted := some c })) := by
  have hb : isBound st = false := by simp [isBound, hfresh, optTruthy]
  have hmain : cyberdesk_create iid t st r env =
      (.tempError (some 5), { statusPatch := some (freshClonePatch iid) }) := by
    simp [cyberdesk_create, hb, hclone, optTruthy, hpool, clone_wait_delay]
  refine ⟨hmain, by rw [hmain], rfl, rfl, rfl, ?_⟩
  intro st' env' r' c hc' hct' hb' hget'
  simp only [cyberdesk_create, hb', Bool.false_eq_true, if_false, hc', hct', if_true,
    Option.getD_some]
  unfold cloneBranch
  rw [hget']
  simp only [if_pos rfl]
  cases env'.cloneCreate c <;> rfl

/-- Witness for C3: a fresh desktop `desk-2` with an empty pool, then the
follow-up pass that creates the clone. -/
theorem C3_fresh_writes_status_before_clone_witness :
    cyberdesk_create "desk-2" (some 3600000) {} 0 sampleEnv =
      (.tempError (some 5), { statusPatch := some (freshClonePatch "desk-2") }) ∧
    cyberdesk_create "desk-2" (some 3600000) (cloningStatus "desk-2") 1 sampleEnvNoClone =
      (.tempError (some 5), { cloneCreateAttempted := some "clone-for-desk-2" }) :=
  ⟨(C3_fresh_writes_status_before_clone "desk-2" (some 3600000) {} 0 sampleEnv
      rfl rfl rfl).1,
   (C3_fresh_writes_status_before_clone "desk-2" (some 3600000) {} 0 sampleEnv
      rfl rfl rfl).2.2.2.2.2 (cloningStatus "desk-2") sampleEnvNoClone 1
      "clone-for-desk-2" rfl (by decide) (by decide) rfl⟩

/-- C2: with the clone still in an in-progress phase, reaching reconcile
attempt 20 deletes the clone object (any delete failure, 404 included, is
swallowed), writes a status whose applied result has
`lastPhase=CloneTimeout` with `cloneOperationName` and
`virtualMachineRef` unset, and raises a permanent error; below 20
attempts the invocation is only a 5s retryable wait. -/
theorem C2_clone_timeout (iid c : String) (t : Option Int) (st : CyberdeskStatus)
    (r : Nat) (env : CreateEnv) (clone_obj : CloneObj)
    (hb : isBound st = false) (hc : st.cloneOperationName = some c)
    (hct : optTruthy (some c) = true)
    (hget : env.cloneGet c = .ok clone_obj)
    (hp1 : clone_obj.phase ≠ some "Succeeded")
    (hp2 : clone_obj.phase ≠ some "Failed")
    (hp3 : clone_obj.phase ≠ some "Unknown") :
    (20 ≤ r →
      cyberdesk_create iid t st r env =
        (.permError, { statusPatch := some (cloneAbortPatch st "CloneTimeout")
                       cloneDeleteAttempted := some c }) ∧
      (applyStatusPatch st (cloneAbortPatch st "CloneTimeout")).lastPhase =
        some "CloneTimeout" ∧
      (applyStatusPatch st (cloneAbortPatch st "CloneTimeout")).cloneOperationName = none ∧
      (applyStatusPatch st (cloneAbortPatch st "CloneTimeout")).virtualMachineRef = none) ∧
    (r < 20 →
      cyberdesk_create iid t st r env = (.tempError (some 5), {})) := by
  constructor
  · intro hr
    refine ⟨?_, rfl, rfl, rfl⟩
    simp only [cyberdesk_create, hb, Bool.false_eq_true, if_false, hc, hct, if_true,
      Option.getD_some]
    unfold cloneBranch
    rw [hget]
    simp [hp1, hp2, hp3, max_clone_wait_retries, hr, clone_wait_delay]
  · intro hr
    simp only [cyberdesk_create, hb, Bool.false_eq_true, if_false, hc, hct, if_true,
      Option.getD_some]
    unfold cloneBranch
    rw [hget]
    simp [hp1, hp2, hp3, max_clone_wait_retries, Nat.not_le.mpr hr, clone_wait_delay]

/-- Witness for C2: `clone-for-desk-2` stuck in `SnapshotInProgress` at
attempt 20 (permanent timeout) and at attempt 19 (retryable wait). -/
theorem C2_clone_timeout_witness :
    cyberdesk_create "desk-2" (some 3600000) (cloningStatus "desk-2") 20 sampleEnv =
      (.permError, { statusPatch := some (cloneAbortPatch (cloningStatus "desk-2") "CloneTimeout")
                     cloneDeleteAttempted := some "clone-for-desk-2" }) ∧
    cyberdesk_create "desk-2" (some 3600000) (cloningStatus "desk-2") 19 sampleEnv =
      (.tempError (some 5), {}) :=
  ⟨((C2_clone_timeout "desk-2" "clone-for-desk-2" (some 3600000) (cloningStatus "desk-2")
      20 sampleEnv { phase := some "SnapshotInProgress" } (by decide) rfl (by decide) rfl
      (by decide) (by decide) (by decide)).1 (by decide)).1,
   (C2_clone_timeout "desk-2" "clone-for-desk-2" (some 3600000) (cloningStatus "desk-2")
      19 sampleEnv { phase := some "SnapshotInProgress" } (by decide) rfl (by decide) rfl
      (by decide) (by decide) (by decide)).2 (by decide)⟩

/-- C5: when the clone's phase is `Succeeded`, the reconciler applies the
post-bind finalization patch to the VM named like the desktop, and writes
one status patch whose applied result has `vmRef=<desktop-name>`,
`phase=Cloned`, `startTime=now`, `expiryTime=now+timeoutMs` and
`cloneOpName` unset. -/
theorem C5_clone_success (iid c : String) (t : Option Int) (st : CyberdeskStatus)
    (r : Nat) (env : CreateEnv) (clone_obj : CloneObj)
    (hb : isBound st = false) (hc : st.cloneOperationName = some c)
    (hct : optTruthy (some c) = true)
    (hget : env.cloneGet c = .ok clone_obj)
    (hph : clone_obj.phase = some "Succeeded")
    (hok : env.ensurePatchOk = true) :
    cyberdesk_create iid t st r env =
      (.done, { statusPatch := some (cloneSuccessPatch iid env.now (t.getD default_timeout_ms))
                vmPatches := [(iid, ensureVmPatchBody iid)] }) ∧
    (applyStatusPatch st (cloneSuccessPatch iid env.now (t.getD default_timeout_ms))) =
      { virtualMachineRef := some iid
        cloneOperationName := none
        lastPhase := some "Cloned"
        startTime := some env.now
        expiryTime := some (env.now + t.getD default_timeout_ms) } := by
  refine ⟨?_, rfl⟩
  simp only [cyberdesk_create, hb, Bool.false_eq_true, if_false, hc, hct, if_true,
    Option.getD_some]
  unfold cloneBranch
  rw [hget]
  simp [hph, hok]

/-- Witness for C5: `desk-2`'s clone succeeds at attempt 3. -/
theorem C5_clone_success_witness :
    cyberdesk_create "desk-2" (some 600000) (cloningStatus "desk-2") 3 sampleEnvCloneDone =
      (.done, { statusPatch := some (cloneSuccessPatch "desk-2" 1000 600000)
                vmPatches := [("desk-2", ensureVmPatchBody "desk-2")] }) ∧
    applyStatusPatch (cloningStatus "desk-2") (cloneSuccessPatch "desk-2" 1000 600000) =
      { virtualMachineRef := some "desk-2"
        cloneOperationName := none
        lastPhase := some "Cloned"
        startTime := some 1000
        expiryTime := some 601000 } :=
  ⟨(C5_clone_success "desk-2" "clone-for-desk-2" (some 600000) (cloningStatus "desk-2")
      3 sampleEnvCloneDone { phase := some "Succeeded" } (by decide) rfl (by decide) rfl
      rfl rfl).1,
   (C5_clone_success "desk-2" "clone-for-desk-2" (some 600000) (cloningStatus "desk-2")
      3 sampleEnvCloneDone { phase := some "Succeeded" } (by decide) rfl (by decide) rfl
      rfl rfl).2⟩

/-- Variant of `sampleEnv` with a pool hit on `vm-a`. -/
def samplePoolEnv : CreateEnv :=
  { sampleEnv with poolResult := .ok (some "vm-a") }

/-- C10: a spec without `timeoutMs` reconciles exactly like one with
`timeoutMs = 3_600_000`, and on both binding paths (pool claim success
and clone success) the status patch then sets
`expiryTime = startTime + 3_600_000` with `startTime = now`. -/
theorem C10_default_timeout (iid : String) (st : CyberdeskStatus) (r : Nat)
    (env : CreateEnv) :
    cyberdesk_create iid none st r env = cyberdesk_create iid (some 3600000) st r env ∧
    (∀ (assigned : String) (cur : VM) (vmi : VMI),
      isBound st = false → optTruthy st.cloneOperationName = false →
      env.poolResult = .ok (some assigned) → env.currentVM assigned = .ok cur →
      env.poolPatchOk = true → env.vmiGet assigned = .ok vmi → vmiNotReady vmi = false →
      (cyberdesk_create iid none st r env).2.statusPatch =
        some { virtualMachineRef := .set assigned
               startTime := .set env.now
               expiryTime := .set (env.now + 3600000)
               lastPhase := .set "AssignedFromPool"
               cloneOperationName := .clear }) ∧
    (∀ (c : String) (clone_obj : CloneObj),
      isBound st = false → st.cloneOperationName = some c → optTruthy (some c) = true →
      env.cloneGet c = .ok clone_obj → clone_obj.phase = some "Succeeded" →
      env.ensurePatchOk = true →
      (cyberdesk_create iid none st r env).2.statusPatch =
        some (cloneSuccessPatch iid env.now 3600000)) := by
  refine ⟨rfl, ?_, ?_⟩
  · intro assigned cur vmi hb hcl hpool hcur hpp hvmi hready
    simp only [cyberdesk_create, hb, Bool.false_eq_true, if_false, hcl, hpool]
    unfold poolBranch
    rw [hcur]
    simp [hpp, hvmi, hready, default_timeout_ms]
  · intro c clone_obj hb hc hct hget hph hok
    simp only [cyberdesk_create, hb, Bool.false_eq_true, if_false, hc, hct, if_true,
      Option.getD_some]
    unfold cloneBranch
    rw [hget]
    simp [hph, hok, default_timeout_ms]

/-- Witness for C10: a spec without `timeoutMs`, claiming `vm-a` from the
pool at `now = 1000`. -/
theorem C10_default_timeout_witness :
    cyberdesk_create "desk-1" none {} 0 samplePoolEnv =
      cyberdesk_create "desk-1" (some 3600000) {} 0 samplePoolEnv ∧
    (cyberdesk_create "desk-1" none {} 0 samplePoolEnv).2.statusPatch =
      some { virtualMachineRef := .set "vm-a"
             startTime := .set 1000
             expiryTime := .set (1000 + 3600000)
             lastPhase := .set "AssignedFromPool"
             cloneOperationName := .clear } :=
  ⟨(C10_default_timeout "desk-1" {} 0 samplePoolEnv).1,
   (C10_default_timeout "desk-1" {} 0 samplePoolEnv).2.1 "vm-a" {}
     { firstInterfaceIp := some "10.0.0.5", phase := some "Running" }
     (by decide) (by decide) rfl rfl rfl rfl (by decide)⟩

/-- Every status patch `cyberdesk_create` can leave behind either spreads
the current `virtualMachineRef` while leaving `cloneOperationName`
untouched (the bound steady state), or nulls `cloneOperationName`, or
nulls `virtualMachineRef`. -/
theorem create_statusPatch_shape (iid : String) (t : Option Int) (st : CyberdeskStatus)
    (r : Nat) (env : CreateEnv) (p : StatusPatch)
    (hp : (cyberdesk_create iid t st r env).2.statusPatch = some p) :
    (p.virtualMachineRef = spreadField st.virtualMachineRef ∧
     p.cloneOperationName = PatchField.absent) ∨
    p.cloneOperationName = PatchField.clear ∨
    p.virtualMachineRef = PatchField.clear := by
  unfold cyberdesk_create boundBranch poolBranch cloneBranch at hp
  repeat' split at hp
  all_goals simp at hp
  all_goals subst hp
  all_goals simp [spreadPatch, freshClonePatch, cloneSuccessPatch, cloneAbortPatch]

/-- C6: starting from a status where `vmRef` and `cloneOpName` are not
both set, every status patch the create reconciler writes yields a
status where they are still not both set. -/
theorem C6_mutual_exclusion (iid : String) (t : Option Int) (st : CyberdeskStatus)
    (r : Nat) (env : CreateEnv) (p : StatusPatch)
    (hpre : ¬(st.virtualMachineRef.isSome = true ∧ st.cloneOperationName.isSome = true))
    (hp : (cyberdesk_create iid t st r env).2.statusPatch = some p) :
    ¬((applyStatusPatch st p).virtualMachineRef.isSome = true ∧
      (applyStatusPatch st p).cloneOperationName.isSome = true) := by
  rcases create_statusPatch_shape iid t st r env p hp with ⟨h1, h2⟩ | h | h
  · intro hcon
    apply hpre
    simpa [applyStatusPatch, h1, h2, applyField_spreadField, applyField_absent] using hcon
  · simp [applyStatusPatch, h, applyField_clear]
  · simp [applyStatusPatch, h, applyField_clear]

/-- Witness for C6: the fresh-state patch of `desk-1` applied to the empty
status leaves `vmRef` unset. -/
theorem C6_mutual_exclusion_witness :
    ¬((applyStatusPatch {} (freshClonePatch "desk-1")).virtualMachineRef.isSome = true ∧
      (applyStatusPatch {} (freshClonePatch "desk-1")).cloneOperationName.isSome = true) :=
  C6_mutual_exclusion "desk-1" none {} 0 sampleEnv (freshClonePatch "desk-1")
    (by decide) rfl

/-- The status of a desktop `desk-1` bound to the pool VM `vm-a`. -/
def c1_boundStatus : CyberdeskStatus :=
  { virtualMachineRef := some "vm-a"
    lastPhase := some "AssignedFromPool"
    startTime := some 1000
    expiryTime := some 601000 }

/-- The pool VM `vm-a` as the pool-assignment path of `desk-1` left it:
identity labels and domain label carry the desktop name `desk-1`. -/
def c1_poolVm : VM :=
  { labels := [("app", "cyberdesk"), ("cyberdesk-instance", "desk-1"),
               ("managed-by", MANAGED_BY), ("pool.kubevirt.io/warm", "claimed"),
               ("pool.kubevirt.io/in-use", "true")]
    template := { labels := [("app", "cyberdesk"), ("cyberdesk-instance", "desk-1"),
                             ("managed-by", MANAGED_BY), ("kubevirt.io/domain", "desk-1")]
                  hostname := some "desk-1" } }

/-- Counterexample to C1: on the bound-steady-state re-patch of desktop
`desk-1` bound to pool VM `vm-a`, the reconciler applies
`_ensure_vm_patched_and_running("vm-a")`, whose patch body keys every
template identity label, the domain label and the hostname to the VM name
`"vm-a"` — overwriting the desktop name `"desk-1"` the template labels
carried — and whose top-level label map contains only `managed-by`. -/
theorem C1_counterexample :
    (cyberdesk_create "desk-1" (some 600000) c1_boundStatus 1 sampleEnv).2.vmPatches =
      [("vm-a", ensureVmPatchBody "vm-a")] ∧
    lookupLabel c1_poolVm.template.labels "cyberdesk-instance" = some "desk-1" ∧
    lookupLabel (applyVMPatch c1_poolVm (ensureVmPatchBody "vm-a")).template.labels
        "cyberdesk-instance" = some "vm-a" ∧
    lookupLabel (applyVMPatch c1_poolVm (ensureVmPatchBody "vm-a")).template.labels
        "cyberdesk-instance" ≠ some "desk-1" ∧
    (applyVMPatch c1_poolVm (ensureVmPatchBody "vm-a")).template.hostname ≠
      some "desk-1" ∧
    (ensureVmPatchBody "vm-a").labels = [("managed-by", MANAGED_BY)] := by
  refine ⟨by decide, rfl, rfl, by decide, by decide, rfl⟩

/-- C1 as amended: post-bind finalization merge-patches the VM it is
given (named `n`): top level gains only `managed-by` (other top-level
keys are preserved), `spec.runStrategy` becomes `Always`, the template
labels gain `app`, `cyberdesk-instance=n`, `managed-by`,
`kubevirt.io/domain=n`, the template hostname becomes `n`, and labels
whose keys the patch does not mention are preserved; the reconciler
passes `n = vmRef` on the bound-steady-state path and `n = <desktop
name>` on the clone-success path. -/
theorem C1_amended_finalization (vm : VM) (n k : String) (iid : String)
    (t : Option Int) (st : CyberdeskStatus) (r : Nat) (env : CreateEnv)
    (c : String) (clone_obj : CloneObj)
    (hk1 : k ≠ "managed-by") (hk2 : k ≠ "app")
    (hk3 : k ≠ "cyberdesk-instance") (hk4 : k ≠ "kubevirt.io/domain") :
    lookupLabel (applyVMPatch vm (ensureVmPatchBody n)).labels "managed-by" =
      some MANAGED_BY ∧
    lookupLabel (applyVMPatch vm (ensureVmPatchBody n)).labels k =
      lookupLabel vm.labels k ∧
    lookupLabel (applyVMPatch vm (ensureVmPatchBody n)).template.labels "app" =
      some "cyberdesk" ∧
    lookupLabel (applyVMPatch vm (ensureVmPatchBody n)).template.labels
      "cyberdesk-instance" = some n ∧
    lookupLabel (applyVMPatch vm (ensureVmPatchBody n)).template.labels "managed-by" =
      some MANAGED_BY ∧
    lookupLabel (applyVMPatch vm (ensureVmPatchBody n)).template.labels
      "kubevirt.io/domain" = some n ∧
    lookupLabel (applyVMPatch vm (ensureVmPatchBody n)).template.labels k =
      lookupLabel vm.template.labels k ∧
    (applyVMPatch vm (ensureVmPatchBody n)).template.hostname = some n ∧
    (applyVMPatch vm (ensureVmPatchBody n)).runStrategy = some "Always" ∧
    (isBound st = true → env.ensurePatchOk = true →
      (cyberdesk_create iid t st r env).2.vmPatches =
        [(st.virtualMachineRef.getD "",
          ensureVmPatchBody (st.virtualMachineRef.getD ""))]) ∧
    (isBound st = false → st.cloneOperationName = some c →
      optTruthy (some c) = true → env.cloneGet c = .ok clone_obj →
      clone_obj.phase = some "Succeeded" → env.ensurePatchOk = true →
      (cyberdesk_create iid t st r env).2.vmPatches = [(iid, ensureVmPatchBody iid)]) := by
  have hk1' : ("managed-by" : String) ≠ k := Ne.symm hk1
  have hk2' : ("app" : String) ≠ k := Ne.symm hk2
  have hk3' : ("cyberdesk-instance" : String) ≠ k := Ne.symm hk3
  have hk4' : ("kubevirt.io/domain" : String) ≠ k := Ne.symm hk4
  refine ⟨?_, ?_, ?_, ?_, ?_, ?_, ?_, rfl, rfl, ?_, ?_⟩
  · simp [applyVMPatch, ensureVmPatchBody, lookupLabel_mergeLabels, lookupLabel]
  · simp [applyVMPatch, ensureVmPatchBody, lookupLabel_mergeLabels, lookupLabel, hk1']
  · simp [applyVMPatch, ensureVmPatchBody, lookupLabel_mergeLabels, lookupLabel]
  · simp [applyVMPatch, ensureVmPatchBody, lookupLabel_mergeLabels, lookupLabel]
  · simp [applyVMPatch, ensureVmPatchBody, lookupLabel_mergeLabels, lookupLabel]
  · simp [applyVMPatch, ensureVmPatchBody, lookupLabel_mergeLabels, lookupLabel]
  · simp [applyVMPatch, ensureVmPatchBody, lookupLabel_mergeLabels, lookupLabel,
      hk1', hk2', hk3', hk4']
  · intro hbound hok
    simp only [cyberdesk_create, hbound, if_true]
    unfold boundBranch
    simp [hok]
  · intro hb hc hct hget hph hok
    simp only [cyberdesk_create, hb, Bool.false_eq_true, if_false, hc, hct, if_true,
      Option.getD_some]
    unfold cloneBranch
    rw [hget]
    simp [hph, hok]

/-- Witness for C1 as amended: finalizing `vm-a` preserves its unrelated
pool label while re-keying the identity labels to `vm-a`; the two
reconciler paths at concrete inputs. -/
theorem C1_amended_finalization_witness :
    lookupLabel (applyVMPatch c1_poolVm (ensureVmPatchBody "vm-a")).labels
      "pool.kubevirt.io/warm" = lookupLabel c1_poolVm.labels "pool.kubevirt.io/warm" ∧
    lookupLabel (applyVMPatch c1_poolVm (ensureVmPatchBody "vm-a")).template.labels
      "cyberdesk-instance" = some "vm-a" ∧
    (cyberdesk_create "desk-1" (some 600000) c1_boundStatus 1 sampleEnv).2.vmPatches =
      [("vm-a", ensureVmPatchBody "vm-a")] ∧
    (cyberdesk_create "desk-2" (some 600000) (cloningStatus "desk-2") 3
        sampleEnvCloneDone).2.vmPatches = [("desk-2", ensureVmPatchBody "desk-2")] := by
  have h := C1_amended_finalization c1_poolVm "vm-a" "pool.kubevirt.io/warm" "desk-1"
    (some 600000) c1_boundStatus 1 sampleEnv "clone-for-desk-2"
    { phase := some "Succeeded" } (by decide) (by decide) (by decide) (by decide)
  have h2 := C1_amended_finalization c1_poolVm "vm-a" "pool.kubevirt.io/warm" "desk-2"
    (some 600000) (cloningStatus "desk-2") 3 sampleEnvCloneDone "clone-for-desk-2"
    { phase := some "Succeeded" } (by decide) (by decide) (by decide) (by decide)
  exact ⟨h.2.1, h.2.2.2.1,
    h.2.2.2.2.2.2.2.2.2.1 (by decide) rfl,
    h2.2.2.2.2.2.2.2.2.2.2 (by decide) rfl (by decide) rfl rfl rfl⟩

end Cyberdesk
